import Mathlib

/-!
Verification of the dblocker repository (calmdocs/dblocker), a Go per-key
database locker.  The definitions below are a shallow embedding of the Go
source files dblocker.go, ticker.go, and the arbitration-task file
(src/unnamed/part_000).  External effects (the sqlx driver calls, the Go
select statement, context cancellation) are made explicit as oracle
parameters that record which branch of each nondeterministic choice fired;
the pure control flow is transcribed from the source.
-/

namespace DBLocker

/-! ## Connect-with-retry loop (ticker.go, connectDBAndWait, lines 83-116)

The Go loop repeatedly calls connectDBFunc.  A failed attempt yields no
handle; the loop then waits one fixed idle interval (2s) and retries,
unless the enclosing context ends during the wait, in which case it
returns with no handle.  We model the n-th connector attempt as
`attempt n : Option Nat` (some = the handle it produced, none = error) and
`ctxDoneAt n : Bool` as whether the context was found done during the wait
that follows failed attempt n.  The first argument is fuel bounding how
many attempts we unfold; the result is `none` while the loop is still
running after that many attempts, `some none` when the loop returned with
no handle (cancellation during the wait), and `some (some d)` when it
returned handle d. -/

def connectDBAndWait (attempt : Nat → Option Nat) (ctxDoneAt : Nat → Bool) :
    Nat → Nat → Option (Option Nat)
  | 0, _ => none
  | fuel + 1, n =>
    match attempt n with
    | some db => some (some db)
    | none => if ctxDoneAt n then some none else connectDBAndWait attempt ctxDoneAt fuel (n + 1)

/-! ## Default connector (ticker.go, DefaultConnectDBFunc, lines 48-81)

The calls into external libraries (sqlmock.New, sqlx.ConnectContext, and
the ExecContext that sets the session statement timeout) are modeled by a
`ConnOracle` giving their results; handles are numbered by Nat and errors
carry their Go message string. -/

def unsupportedTimeoutMsg (driverName : String) : String :=
  "connectDB error: statementTimeout for database type not implemented: " ++ driverName

def unknownDriverMsg (driverName : String) : String :=
  "connectDB error: database type not implemented: " ++ driverName

structure ConnOracle where
  mockNew : Except String Nat
  connectContext : Except String Nat
  execTimeout : Except String Unit

def DefaultConnectDBFunc (o : ConnOracle) (driverName : String)
    (statementTimeout : Option Nat) : Except String Nat :=
  if driverName = "mock" then
    match o.mockNew with
    | .error e => .error e
    | .ok h =>
      match statementTimeout with
      | some _ => .error (unsupportedTimeoutMsg driverName)
      | none => .ok h
  else if driverName = "sqlite3" then
    match o.connectContext with
    | .error e => .error e
    | .ok h =>
      match statementTimeout with
      | some _ => .error (unsupportedTimeoutMsg driverName)
      | none => .ok h
  else if driverName = "postgres" then
    match o.connectContext with
    | .error e => .error e
    | .ok h =>
      match statementTimeout with
      | some _ =>
        match o.execTimeout with
        | .error e => .error e
        | .ok _ => .ok h
      | none => .ok h
  else if driverName = "mysql" then
    match o.connectContext with
    | .error e => .error e
    | .ok h =>
      match statementTimeout with
      | some _ =>
        match o.execTimeout with
        | .error e => .error e
        | .ok _ => .ok h
      | none => .ok h
  else .error (unknownDriverMsg driverName)

/-! ## Store construction (dblocker.go, NewWithConnectDBFuncAndTimeouts, lines 88-122)

Only the validation logic matters for the claims: with a non-nil
statementTimeout the driver name is checked (mock and sqlite3 are rejected
with the unsupported-timeout error, postgres and mysql accepted, anything
else rejected as an unknown database type); with a nil statementTimeout no
check runs and the Store is created. -/

def NewWithConnectDBFuncAndTimeouts (driverName : String)
    (statementTimeout : Option Nat) : Except String Unit :=
  match statementTimeout with
  | none => .ok ()
  | some _ =>
    if driverName = "mock" then .error (unsupportedTimeoutMsg driverName)
    else if driverName = "sqlite3" then .error (unsupportedTimeoutMsg driverName)
    else if driverName = "postgres" then .ok ()
    else if driverName = "mysql" then .ok ()
    else .error (unknownDriverMsg driverName)

/-- Default statement timeout chosen by New (dblocker.go lines 49-62):
4 minutes for postgres and mysql, nil otherwise (modeled in seconds). -/
def defaultStatementTimeout (driverName : String) : Option Nat :=
  if driverName = "postgres" then some 240
  else if driverName = "mysql" then some 240
  else none

def New (driverName : String) : Except String Unit :=
  NewWithConnectDBFuncAndTimeouts driverName (defaultStatementTimeout driverName)

/-! ## Acquire core (dblocker.go, waitGetDB, lines 174-313)

waitGetDB derives an internal context, validates the access type, then
(under the Store mutex) looks up or creates the Group for the id and
increments its requestCount, with a deferred decrement that runs on every
return path.  It then sends a Request into the rw queue (access types rw
and rwseparate) or the read queue (read), and finally either calls the
connector directly (rwseparate) or receives the shared handle from dbCh
(rw, read).  Each Go select is modeled by an oracle field recording which
branch fired.  The result records, besides the returned triple
(cancel, db, err), the ordered requestCount deltas the call performed,
which queue (if any) received the Request, and whether the returned handle
was read from the shared dbCh channel. -/

inductive Err where
  | storeShutdown
  | ctxTimeout
  | unknownAccessType (accessType : String)
  | connector (msg : String)
  deriving DecidableEq

inductive SelOutcome where
  | proceed
  | storeCtxDone
  | ctxDone
  deriving DecidableEq

inductive QueueId where
  | rwQueue
  | readQueue
  deriving DecidableEq

structure WaitOracle where
  enqueueSel : SelOutcome
  recvSel : SelOutcome
  recvDB : Nat
  connector : Option Nat → Except String Nat

structure WaitResult where
  cancelFn : Bool
  db : Option Nat
  err : Option Err
  rcDeltas : List Int
  enqueuedTo : Option QueueId
  readFromDbCh : Bool
  deriving DecidableEq

def waitGetDB (accessType : String) (o : WaitOracle)
    (statementTimeout : Option Nat) : WaitResult :=
  if accessType = "rw" ∨ accessType = "rwseparate" ∨ accessType = "read" then
    let queue : QueueId := if accessType = "read" then .readQueue else .rwQueue
    match o.enqueueSel with
    | .storeCtxDone =>
      ⟨false, none, some .storeShutdown, [1, -1], none, false⟩
    | .ctxDone =>
      ⟨false, none, some .ctxTimeout, [1, -1], none, false⟩
    | .proceed =>
      if accessType = "rwseparate" then
        match o.connector statementTimeout with
        | .error e => ⟨false, none, some (.connector e), [1, -1], some queue, false⟩
        | .ok d => ⟨true, some d, none, [1, -1], some queue, false⟩
      else
        match o.recvSel with
        | .proceed => ⟨true, some o.recvDB, none, [1, -1], some queue, true⟩
        | .storeCtxDone => ⟨false, none, some .storeShutdown, [1, -1], some queue, false⟩
        | .ctxDone => ⟨false, none, some .ctxTimeout, [1, -1], some queue, false⟩
  else
    ⟨false, none, some (.unknownAccessType accessType), [], none, false⟩

/-! ## Public accessors (dblocker.go, lines 124-172)

The x variants return the sqlx handle directly.  The plain variants
evaluate the Go expression sqlxDB.DB on the returned pointer before
checking err; on every error path waitGetDB returns a nil pointer, and
selecting the embedded field of a nil pointer is a runtime panic, which we
model with GoOutcome.panicked. -/

inductive GoOutcome (α : Type) where
  | ok (a : α)
  | panicked
  deriving DecidableEq

def derefSqlxDB : Option Nat → GoOutcome Nat
  | none => .panicked
  | some d => .ok d

def RWGetDBx (o : WaitOracle) : WaitResult := waitGetDB "rw" o none

def ReadGetDBx (o : WaitOracle) : WaitResult := waitGetDB "read" o none

def RWGetDBxWithTimeout (o : WaitOracle) (statementTimeout : Option Nat) : WaitResult :=
  waitGetDB "rwseparate" o statementTimeout

def RWGetDB (o : WaitOracle) : GoOutcome (Bool × Nat × Option Err) :=
  let r := waitGetDB "rw" o none
  match derefSqlxDB r.db with
  | .panicked => .panicked
  | .ok d => .ok (r.cancelFn, d, r.err)

def ReadGetDB (o : WaitOracle) : GoOutcome (Bool × Nat × Option Err) :=
  let r := waitGetDB "read" o none
  match derefSqlxDB r.db with
  | .panicked => .panicked
  | .ok d => .ok (r.cancelFn, d, r.err)

def RWGetDBWithTimeout (o : WaitOracle) (statementTimeout : Option Nat) :
    GoOutcome (Bool × Nat × Option Err) :=
  let r := waitGetDB "rwseparate" o statementTimeout
  match derefSqlxDB r.db with
  | .panicked => .panicked
  | .ok d => .ok (r.cancelFn, d, r.err)

/-! ## Arbitration task (src/unnamed/part_000, startGroup, lines 112-270)

The task is a loop with local state isRW : Bool and readCount : Nat.  The
loop body is a switch: when isRW it serves the rw holder (inner select on
dbCh send, rwDoneCh, store context), and when the holder finishes it runs
a teardown check under the Store mutex; when readCount > 0 it selects on
dbCh send, the read queue, readDoneCh and the store context, running the
teardown check when readCount drops to zero; otherwise (idle) it selects
on the store context, dbCh send, the rw queue and the read queue.  The
teardown check destroys the Group (closes every channel, closes the
database handle, deletes the map entry) exactly when requestCount = 0.

We embed this as a small-step transition system.  A location tracks where
control sits between atomic events: dispatch is the top of the loop (with
the branch chosen by isRW / readCount), rwCheck and readCheck are the
points after a holder-done message where the teardown check is pending but
the Store mutex is not yet taken (so requestCount updates by concurrent
waitGetDB calls can interleave there), destroyed is the return after
deleting the group, stopped is the return taken when the store context
ends.  requestCount is the Group field mutated under the Store mutex by
waitGetDB (events incReq and decReq); rwHolders is a ghost counter of
admitted and not yet finished rw holders (one per Request received from
the rw queue, one decrement per rwDoneCh message). -/

inductive Loc where
  | dispatch
  | rwCheck
  | readCheck
  | destroyed
  | stopped
  deriving DecidableEq

inductive GEvent where
  | offerDB
  | rwReq
  | readReq
  | rwDone
  | readDone
  | ctxDone
  | lockCheck
  | incReq
  | decReq
  deriving DecidableEq

structure GState where
  loc : Loc
  isRW : Bool
  readCount : Nat
  requestCount : Int
  rwHolders : Nat
  deriving DecidableEq

def step (s : GState) (e : GEvent) : Option GState :=
  match e with
  | .incReq =>
    if s.loc = .destroyed then none
    else some { s with requestCount := s.requestCount + 1 }
  | .decReq =>
    if s.loc = .destroyed then none
    else some { s with requestCount := s.requestCount - 1 }
  | .offerDB =>
    match s.loc with
    | .dispatch => some s
    | _ => none
  | .ctxDone =>
    match s.loc with
    | .dispatch => some { s with loc := .stopped }
    | _ => none
  | .rwReq =>
    match s.loc with
    | .dispatch =>
      if s.isRW then none
      else if 0 < s.readCount then none
      else some { s with isRW := true, rwHolders := s.rwHolders + 1 }
    | _ => none
  | .readReq =>
    match s.loc with
    | .dispatch =>
      if s.isRW then none
      else some { s with readCount := s.readCount + 1 }
    | _ => none
  | .rwDone =>
    match s.loc with
    | .dispatch =>
      if s.isRW then
        some { s with isRW := false, rwHolders := s.rwHolders - 1, loc := .rwCheck }
      else none
    | _ => none
  | .readDone =>
    match s.loc with
    | .dispatch =>
      if s.isRW then none
      else if 0 < s.readCount then
        if s.readCount - 1 = 0 then
          some { s with readCount := s.readCount - 1, loc := .readCheck }
        else
          some { s with readCount := s.readCount - 1 }
      else none
    | _ => none
  | .lockCheck =>
    match s.loc with
    | .rwCheck =>
      if s.requestCount = 0 then some { s with loc := .destroyed }
      else some { s with loc := .dispatch }
    | .readCheck =>
      if s.requestCount = 0 then some { s with loc := .destroyed }
      else some { s with loc := .dispatch }
    | _ => none

/-- Reachable states of a Group task: it starts at the top of the loop with
no holder, no admitted reader, and whatever requestCount the concurrent
waitGetDB callers have produced by then. -/
inductive Reach : GState → Prop where
  | init (rc : Int) : Reach ⟨.dispatch, false, 0, rc, 0⟩
  | next {s s' : GState} {e : GEvent} : Reach s → step s e = some s' → Reach s'

def Inv (s : GState) : Prop :=
  s.rwHolders = (if s.isRW then 1 else 0)
  ∧ (s.isRW = true → s.readCount = 0)
  ∧ (s.loc = .rwCheck → s.isRW = false ∧ s.readCount = 0)
  ∧ (s.loc = .readCheck → s.isRW = false ∧ s.readCount = 0)

theorem inv_step {s s' : GState} {e : GEvent} (hs : Inv s) (h : step s e = some s') :
    Inv s' := by
  obtain ⟨loc, isRW, readCount, requestCount, rwHolders⟩ := s
  obtain ⟨h1, h2, h3, h4⟩ := hs
  simp only at h1 h2 h3 h4
  cases e <;> cases loc <;>
    simp only [step] at h <;>
    (try split_ifs at h) <;>
    (try exact Option.noConfusion h) <;>
    (injection h with h; subst h) <;>
    simp_all [Inv]

theorem inv_reach {s : GState} (h : Reach s) : Inv s := by
  induction h with
  | init rc => simp [Inv]
  | next _ hstep ih => exact inv_step ih hstep

/-! ## Store mutex discipline

The source takes the Store mutex (s.Lock ... s.Unlock) in exactly five
places.  We transcribe each critical section as the list of operations it
performs while holding the mutex, and tag each operation with whether it
can block (wait on a channel, a timer, or a connection attempt).  The
five sections are:
  1. waitGetDB lines 217-233: map lookup, possible map insert of a new
     Group, requestCount increment;
  2. waitGetDB lines 236-240 (the deferred cleanup): requestCount
     decrement;
  3. startGroup lines 120-129: the call to connectDBAndWait, which waits
     on connection attempts and on the 2 second retry timer while the
     mutex is held;
  4. startGroup lines 153-168 (rw teardown check): requestCount read,
     channel closes, database close, map delete;
  5. startGroup lines 201-216 (read teardown check): the same operations. -/

inductive LockedOp where
  | mapLookup
  | mapInsert
  | counterInc
  | counterDec
  | counterRead
  | chanClose
  | handleClose
  | mapDelete
  | connectWithRetry
  deriving DecidableEq

def LockedOp.blocks : LockedOp → Bool
  | .connectWithRetry => true
  | _ => false

structure CriticalSection where
  label : String
  ops : List LockedOp
  deriving DecidableEq

def sectionBlocks (cs : CriticalSection) : Bool := cs.ops.any LockedOp.blocks

def waitGetDBLookupSection : CriticalSection :=
  ⟨"waitGetDB lookup-create-increment", [.mapLookup, .mapInsert, .counterInc]⟩

def waitGetDBDeferSection : CriticalSection :=
  ⟨"waitGetDB deferred decrement", [.counterDec]⟩

def startGroupConnectSection : CriticalSection :=
  ⟨"startGroup connect", [.connectWithRetry]⟩

def startGroupRWTeardownSection : CriticalSection :=
  ⟨"startGroup rw teardown check",
    [.counterRead, .chanClose, .chanClose, .chanClose, .chanClose, .chanClose,
     .handleClose, .mapDelete]⟩

def startGroupReadTeardownSection : CriticalSection :=
  ⟨"startGroup read teardown check",
    [.counterRead, .chanClose, .chanClose, .chanClose, .chanClose, .chanClose,
     .handleClose, .mapDelete]⟩

def storeMutexSections : List CriticalSection :=
  [waitGetDBLookupSection, waitGetDBDeferSection, startGroupConnectSection,
   startGroupRWTeardownSection, startGroupReadTeardownSection]

/-! ## Claim theorems -/

/-- C1: per-key mutual exclusion.  In every reachable state of the
arbitration task, at most one rw holder (Exclusive or ExclusivePrivate,
both delivered through the rw queue) is admitted; whenever an rw holder is
admitted the count of admitted read holders is 0; while readCount > 0 the
task cannot accept an rw-queue request; and while an rw holder is active
the task cannot accept a read-queue request. -/
theorem c1_per_key_mutual_exclusion (s : GState) (h : Reach s) :
    s.rwHolders ≤ 1
    ∧ (1 ≤ s.rwHolders → s.readCount = 0)
    ∧ (0 < s.readCount → step s .rwReq = none)
    ∧ (1 ≤ s.rwHolders → step s .readReq = none) := by
  obtain ⟨h1, h2, h3, h4⟩ := inv_reach h
  obtain ⟨loc, isRW, readCount, requestCount, rwHolders⟩ := s
  simp only at h1 h2 h3 h4
  refine ⟨?_, ?_, ?_, ?_⟩ <;>
    cases loc <;> cases isRW <;> simp_all [step]

theorem c1_witness :
    Reach ⟨.dispatch, true, 0, 1, 1⟩
    ∧ ((⟨.dispatch, true, 0, 1, 1⟩ : GState).rwHolders ≤ 1
      ∧ (1 ≤ (⟨.dispatch, true, 0, 1, 1⟩ : GState).rwHolders →
          (⟨.dispatch, true, 0, 1, 1⟩ : GState).readCount = 0)
      ∧ (0 < (⟨.dispatch, true, 0, 1, 1⟩ : GState).readCount →
          step ⟨.dispatch, true, 0, 1, 1⟩ .rwReq = none)
      ∧ (1 ≤ (⟨.dispatch, true, 0, 1, 1⟩ : GState).rwHolders →
          step ⟨.dispatch, true, 0, 1, 1⟩ .readReq = none)) := by
  have r1 : Reach ⟨.dispatch, true, 0, 1, 1⟩ :=
    @Reach.next ⟨.dispatch, false, 0, 1, 0⟩ ⟨.dispatch, true, 0, 1, 1⟩ .rwReq
      (Reach.init 1) (by decide)
  exact ⟨r1, c1_per_key_mutual_exclusion _ r1⟩

/-- C2: a Group is destroyed (channels closed, database handle closed, map
entry deleted: the transition into the destroyed location) only from an
instant at which requestCount = 0 and the task holds no lock: no rw holder
is admitted and the read-holder count is 0. -/
theorem c2_destroy_only_idle_unreferenced {s s' : GState} {e : GEvent}
    (h : Reach s) (hs : step s e = some s') (hd : s'.loc = .destroyed) :
    s.requestCount = 0 ∧ s.rwHolders = 0 ∧ s.readCount = 0 ∧ s.isRW = false := by
  obtain ⟨h1, h2, h3, h4⟩ := inv_reach h
  obtain ⟨loc, isRW, readCount, requestCount, rwHolders⟩ := s
  simp only at h1 h2 h3 h4 ⊢
  cases e <;> cases loc <;>
    simp only [step] at hs <;>
    (try split_ifs at hs) <;>
    (try exact Option.noConfusion hs) <;>
    (injection hs with hs; subst hs) <;>
    simp_all

theorem c2_witness :
    Reach ⟨.rwCheck, false, 0, 0, 0⟩
    ∧ step ⟨.rwCheck, false, 0, 0, 0⟩ .lockCheck = some ⟨.destroyed, false, 0, 0, 0⟩
    ∧ ((⟨.rwCheck, false, 0, 0, 0⟩ : GState).requestCount = 0
      ∧ (⟨.rwCheck, false, 0, 0, 0⟩ : GState).rwHolders = 0
      ∧ (⟨.rwCheck, false, 0, 0, 0⟩ : GState).readCount = 0
      ∧ (⟨.rwCheck, false, 0, 0, 0⟩ : GState).isRW = false) := by
  have r1 : Reach ⟨.dispatch, true, 0, 1, 1⟩ :=
    @Reach.next ⟨.dispatch, false, 0, 1, 0⟩ ⟨.dispatch, true, 0, 1, 1⟩ .rwReq
      (Reach.init 1) (by decide)
  have r2 : Reach ⟨.rwCheck, false, 0, 1, 0⟩ :=
    @Reach.next ⟨.dispatch, true, 0, 1, 1⟩ ⟨.rwCheck, false, 0, 1, 0⟩ .rwDone r1 (by decide)
  have r3 : Reach ⟨.rwCheck, false, 0, 0, 0⟩ :=
    @Reach.next ⟨.rwCheck, false, 0, 1, 0⟩ ⟨.rwCheck, false, 0, 0, 0⟩ .decReq r2 (by decide)
  exact ⟨r3, by decide,
    @c2_destroy_only_idle_unreferenced ⟨.rwCheck, false, 0, 0, 0⟩
      ⟨.destroyed, false, 0, 0, 0⟩ .lockCheck r3 (by decide) rfl⟩

/-- The idle, unreferenced state of a Group task: top of the serving loop,
no rw holder, no read holder, requestCount 0.  It is reached, for example,
when the creating caller times out before its request is admitted. -/
def idleUnref : GState := ⟨.dispatch, false, 0, 0, 0⟩

/-- C4 counterexample: the removal of a Group is NOT equivalent to the
existence of an instant with no in-flight acquire and no held lock.  The
state idleUnref is reachable (the creating caller incremented requestCount
and then decremented it on a pre-admission timeout, so no holder was ever
granted), it has requestCount 0 and no holder, yet the Group is not
destroyed there, and no step available without a new caller (that is,
excluding a requestCount increment or decrement and new queue deliveries)
ever destroys it: every such step either leaves the state unchanged or
terminates the task through store shutdown, which does not remove the
Group.  Teardown checks run only after a holder finishes, so a Group whose
callers all left before admission leaks until store shutdown. -/
theorem c4_counterexample :
    Reach idleUnref
    ∧ idleUnref.requestCount = 0
    ∧ idleUnref.rwHolders = 0
    ∧ idleUnref.readCount = 0
    ∧ idleUnref.loc ≠ .destroyed
    ∧ (∀ e : GEvent, e ≠ .incReq → e ≠ .decReq → e ≠ .rwReq → e ≠ .readReq →
        ∀ s' : GState, step idleUnref e = some s' →
          s'.loc ≠ .destroyed ∧ (s' = idleUnref ∨ s'.loc = .stopped)) := by
  refine ⟨@Reach.next ⟨.dispatch, false, 0, 1, 0⟩ idleUnref .decReq (Reach.init 1) (by decide),
    rfl, rfl, rfl, by decide, ?_⟩
  intro e h1 h2 h3 h4 s' hs
  cases e with
  | incReq => exact absurd rfl h1
  | decReq => exact absurd rfl h2
  | rwReq => exact absurd rfl h3
  | readReq => exact absurd rfl h4
  | offerDB =>
    simp only [step, idleUnref] at hs
    injection hs with hs
    subst hs
    exact ⟨by decide, Or.inl rfl⟩
  | ctxDone =>
    simp only [step, idleUnref] at hs
    injection hs with hs
    subst hs
    exact ⟨by decide, Or.inr rfl⟩
  | rwDone => exact Option.noConfusion hs
  | readDone => exact Option.noConfusion hs
  | lockCheck => exact Option.noConfusion hs

/-- C4 amended: the only-if direction holds (a Group is removed only at an
instant with requestCount = 0 and no holder, see C2), and removal does
happen whenever a holder-completion teardown check (the rwCheck or
readCheck location) runs with requestCount = 0; but from the serving loop
location no step destroys the Group, so being idle and unreferenced at
some instant does not by itself make the Group ever be removed. -/
theorem c4_amended_removal_exactly_at_teardown_check (s : GState) :
    ((s.loc = .rwCheck ∨ s.loc = .readCheck) → s.requestCount = 0 →
      step s .lockCheck = some { s with loc := .destroyed })
    ∧ (s.loc = .dispatch → ∀ (e : GEvent) (s' : GState),
        step s e = some s' → s'.loc ≠ .destroyed) := by
  constructor
  · intro hloc hrc
    rcases hloc with hl | hl <;> simp [step, hl, hrc]
  · intro hloc e s' hs
    obtain ⟨loc, isRW, readCount, requestCount, rwHolders⟩ := s
    simp only at hloc
    subst hloc
    cases e <;>
      simp only [step] at hs <;>
      (try split_ifs at hs) <;>
      (try exact Option.noConfusion hs) <;>
      (injection hs with hs; subst hs) <;>
      simp

theorem c4_witness :
    step ⟨.rwCheck, false, 0, 0, 0⟩ .lockCheck = some ⟨.destroyed, false, 0, 0, 0⟩
    ∧ step ⟨.readCheck, false, 0, 0, 0⟩ .lockCheck = some ⟨.destroyed, false, 0, 0, 0⟩ :=
  ⟨(c4_amended_removal_exactly_at_teardown_check ⟨.rwCheck, false, 0, 0, 0⟩).1 (Or.inl rfl) rfl,
   (c4_amended_removal_exactly_at_teardown_check ⟨.readCheck, false, 0, 0, 0⟩).1 (Or.inr rfl) rfl⟩

/-- Oracle for an acquire call whose internal context is already done when
the request is about to be enqueued: the enqueue select takes the
ctx.Done branch and waitGetDB returns (nil, nil, ctx.Err()). -/
def cancelledCallerOracle : WaitOracle :=
  ⟨.ctxDone, .proceed, 0, fun _ => .ok 0⟩

/-- C3 failing input: on any error path waitGetDB returns a nil *sqlx.DB,
and RWGetDB (dblocker.go line 129), ReadGetDB (line 162) and
RWGetDBWithTimeout (line 145) then evaluate sqlxDB.DB, the selection of
the embedded field of a nil pointer, which is a runtime panic instead of
the promised (non-nil error, nil handle) return.  The sqlx variants,
which return the pointer without dereferencing it, behave as claimed. -/
theorem c3_sql_variants_panic_on_error_path :
    (waitGetDB "rw" cancelledCallerOracle none).err = some .ctxTimeout
    ∧ (waitGetDB "rw" cancelledCallerOracle none).db = none
    ∧ RWGetDB cancelledCallerOracle = .panicked
    ∧ ReadGetDB cancelledCallerOracle = .panicked
    ∧ RWGetDBWithTimeout cancelledCallerOracle (some 5) = .panicked
    ∧ RWGetDBx cancelledCallerOracle
        = ⟨false, none, some .ctxTimeout, [1, -1], none, false⟩ :=
  ⟨rfl, rfl, rfl, rfl, rfl, rfl⟩

/-- C8: every waitGetDB call with a valid access type (so it reaches the
Group lookup) increments requestCount by exactly 1 under the Store mutex
before the enqueue and decrements it by exactly 1 on its return path,
whatever the outcome: its ordered requestCount deltas are [1, -1] and the
net effect is 0. -/
theorem c8_requestCount_balanced (accessType : String) (o : WaitOracle)
    (t : Option Nat)
    (h : accessType = "rw" ∨ accessType = "rwseparate" ∨ accessType = "read") :
    (waitGetDB accessType o t).rcDeltas = [1, -1]
    ∧ ((waitGetDB accessType o t).rcDeltas).sum = 0 := by
  have hdeltas : (waitGetDB accessType o t).rcDeltas = [1, -1] := by
    unfold waitGetDB
    rw [if_pos h]
    cases o.enqueueSel <;>
      (try split_ifs) <;>
      first
        | rfl
        | (cases o.connector t <;> rfl)
        | (cases o.recvSel <;> rfl)
  exact ⟨hdeltas, by rw [hdeltas]; rfl⟩

theorem c8_witness :
    ("read" = "rw" ∨ "read" = "rwseparate" ∨ "read" = "read")
    ∧ (waitGetDB "read" ⟨.proceed, .proceed, 7, fun _ => .ok 7⟩ none).rcDeltas = [1, -1] :=
  ⟨Or.inr (Or.inr rfl),
   (c8_requestCount_balanced "read" ⟨.proceed, .proceed, 7, fun _ => .ok 7⟩ none
      (Or.inr (Or.inr rfl))).1⟩

/-- C9: an ExclusivePrivate acquire (access type rwseparate) is delivered
through the same rw queue as a normal exclusive request, never takes its
handle from the shared dbCh channel, and after admission calls the
connector directly with the caller-supplied session timeout: a connector
success becomes the returned handle with a nil error, and a connector
error is propagated as the result of the call with a nil handle. -/
theorem c9_rwseparate_private_session (o : WaitOracle) (t : Option Nat)
    (h : o.enqueueSel = .proceed) :
    (waitGetDB "rwseparate" o t).enqueuedTo = some .rwQueue
    ∧ (waitGetDB "rw" o t).enqueuedTo = some .rwQueue
    ∧ (waitGetDB "rwseparate" o t).readFromDbCh = false
    ∧ (∀ d : Nat, o.connector t = .ok d →
        (waitGetDB "rwseparate" o t).db = some d
        ∧ (waitGetDB "rwseparate" o t).err = none)
    ∧ (∀ e : String, o.connector t = .error e →
        (waitGetDB "rwseparate" o t).db = none
        ∧ (waitGetDB "rwseparate" o t).err = some (.connector e)) := by
  refine ⟨?_, ?_, ?_, ?_, ?_⟩
  · unfold waitGetDB
    rw [if_pos (Or.inr (Or.inl rfl)), h]
    cases hc : o.connector t <;> rfl
  · unfold waitGetDB
    rw [if_pos (Or.inl rfl), h]
    cases o.recvSel <;> rfl
  · unfold waitGetDB
    rw [if_pos (Or.inr (Or.inl rfl)), h]
    cases hc : o.connector t <;> rfl
  · intro d hd
    unfold waitGetDB
    rw [if_pos (Or.inr (Or.inl rfl)), h]
    simp [hd]
  · intro e he
    unfold waitGetDB
    rw [if_pos (Or.inr (Or.inl rfl)), h]
    simp [he]

theorem c9_witness :
    (⟨.proceed, .proceed, 0, fun _ => .ok 42⟩ : WaitOracle).enqueueSel = .proceed
    ∧ (waitGetDB "rwseparate" ⟨.proceed, .proceed, 0, fun _ => .ok 42⟩ (some 5)).enqueuedTo
        = some .rwQueue
    ∧ (waitGetDB "rwseparate" ⟨.proceed, .proceed, 0, fun _ => .ok 42⟩ (some 5)).db = some 42 :=
  ⟨rfl,
   (c9_rwseparate_private_session ⟨.proceed, .proceed, 0, fun _ => .ok 42⟩ (some 5) rfl).1,
   ((c9_rwseparate_private_session ⟨.proceed, .proceed, 0, fun _ => .ok 42⟩ (some 5) rfl).2.2.2.1
      42 rfl).1⟩

/-- Skipping j failed, uncancelled attempts consumes exactly j units of
fuel and advances the attempt index by j. -/
theorem connectDBAndWait_skip (attempt : Nat → Option Nat) (ctxDoneAt : Nat → Bool) :
    ∀ (j n fuel : Nat),
      (∀ i, i < j → attempt (n + i) = none ∧ ctxDoneAt (n + i) = false) →
      connectDBAndWait attempt ctxDoneAt (fuel + j) n
        = connectDBAndWait attempt ctxDoneAt fuel (n + j) := by
  intro j
  induction j with
  | zero => intro n fuel _; rfl
  | succ j ih =>
    intro n fuel h
    obtain ⟨ha, hc⟩ := h 0 (Nat.succ_pos j)
    rw [Nat.add_zero] at ha hc
    have hrec : fuel + (j + 1) = (fuel + j) + 1 := by omega
    rw [hrec]
    show (match attempt n with
      | some db => some (some db)
      | none => if ctxDoneAt n then some none
                else connectDBAndWait attempt ctxDoneAt (fuel + j) (n + 1)) = _
    rw [ha, hc]
    simp only [Bool.false_eq_true, if_false]
    rw [ih (n + 1) fuel (fun i hi => by
      have := h (i + 1) (by omega)
      rwa [show n + (i + 1) = n + 1 + i by omega] at this)]
    congr 1
    omega

/-- C7: the connect-with-retry loop.  If the first k connector invocations
fail and the scope does not end during the waits between them, then the
loop is still running after any fuel bound of at most k attempts (there is
no retry cap); if invocation k is the first success, every sufficiently
large unfolding returns exactly the handle it produced; and if invocation
k also fails and the scope ends during the following wait, the loop aborts
and returns no handle (nil). -/
theorem c7_connect_retry (attempt : Nat → Option Nat) (ctxDoneAt : Nat → Bool) (k : Nat)
    (h : ∀ i, i < k → attempt i = none ∧ ctxDoneAt i = false) :
    (∀ fuel, fuel ≤ k → connectDBAndWait attempt ctxDoneAt fuel 0 = none)
    ∧ (∀ d : Nat, attempt k = some d → ∀ fuel, k < fuel →
        connectDBAndWait attempt ctxDoneAt fuel 0 = some (some d))
    ∧ (attempt k = none → ctxDoneAt k = true → ∀ fuel, k < fuel →
        connectDBAndWait attempt ctxDoneAt fuel 0 = some none) := by
  refine ⟨?_, ?_, ?_⟩
  · intro fuel hfuel
    have := connectDBAndWait_skip attempt ctxDoneAt fuel 0 0
      (fun i hi => by simpa using h i (by omega))
    rw [Nat.zero_add] at this
    rw [this]
    rfl
  · intro d hd fuel hfuel
    obtain ⟨m, rfl⟩ : ∃ m, fuel = (m + 1) + k := ⟨fuel - k - 1, by omega⟩
    rw [connectDBAndWait_skip attempt ctxDoneAt k 0 (m + 1)
      (fun i hi => by simpa using h i hi)]
    rw [Nat.zero_add]
    show (match attempt k with
      | some db => some (some db)
      | none => if ctxDoneAt k then some none
                else connectDBAndWait attempt ctxDoneAt m (k + 1)) = _
    rw [hd]
  · intro ha hc fuel hfuel
    obtain ⟨m, rfl⟩ : ∃ m, fuel = (m + 1) + k := ⟨fuel - k - 1, by omega⟩
    rw [connectDBAndWait_skip attempt ctxDoneAt k 0 (m + 1)
      (fun i hi => by simpa using h i hi)]
    rw [Nat.zero_add]
    show (match attempt k with
      | some db => some (some db)
      | none => if ctxDoneAt k then some none
                else connectDBAndWait attempt ctxDoneAt m (k + 1)) = _
    rw [ha, hc]
    rfl

theorem c7_witness :
    (∀ i, i < 2 → (fun n => if n = 2 then some 7 else none) i = (none : Option Nat)
      ∧ (fun _ => false) i = false)
    ∧ connectDBAndWait (fun n => if n = 2 then some 7 else none) (fun _ => false) 2 0 = none
    ∧ connectDBAndWait (fun n => if n = 2 then some 7 else none) (fun _ => false) 3 0
        = some (some 7)
    ∧ connectDBAndWait (fun _ => none) (fun n => n == 1) 3 0 = some none :=
  ⟨by decide,
   (c7_connect_retry (fun n => if n = 2 then some 7 else none) (fun _ => false) 2
      (by decide)).1 2 (by decide),
   (c7_connect_retry (fun n => if n = 2 then some 7 else none) (fun _ => false) 2
      (by decide)).2.1 7 (by decide) 3 (by decide),
   (c7_connect_retry (fun _ => none) (fun n => n == 1) 1
      (by decide)).2.2 rfl rfl 3 (by decide)⟩

/-- C5 counterexample: the Store mutex is NOT held only for O(1) map and
counter operations.  The critical section at the start of startGroup
(part_000 lines 120-129) holds the Store mutex across the whole
connect-with-retry loop, which blocks on connection attempts and on the
2 second retry timer. -/
theorem c5_counterexample :
    startGroupConnectSection ∈ storeMutexSections
    ∧ sectionBlocks startGroupConnectSection = true := by
  exact ⟨by decide, rfl⟩

/-- C5 amended: of the five Store-mutex critical sections in the source,
the only one containing a blocking operation is the startGroup connect
section; the waitGetDB lookup and decrement sections and the two teardown
checks perform only O(1) map, counter, and close operations and never
block while holding the mutex. -/
theorem c5_amended_only_connect_section_blocks :
    storeMutexSections.filter sectionBlocks = [startGroupConnectSection] := by
  decide

/-- C6 counterexample: the unsupported-session-timeout error is not
construction-time only.  A Store for driver sqlite3 with a nil
statementTimeout is constructed successfully, yet an acquire with an
explicit session timeout (RWGetDBWithTimeout, access type rwseparate)
calls the default connector with that timeout after admission, and when
the underlying connection succeeds the connector returns exactly the
unsupported-session-timeout error, which the acquire call propagates to
the caller. -/
theorem c6_counterexample :
    NewWithConnectDBFuncAndTimeouts "sqlite3" none = .ok ()
    ∧ RWGetDBxWithTimeout
        ⟨.proceed, .proceed, 0, fun t => DefaultConnectDBFunc ⟨.ok 0, .ok 1, .ok ()⟩ "sqlite3" t⟩
        (some 5)
      = ⟨false, none, some (.connector (unsupportedTimeoutMsg "sqlite3")), [1, -1],
          some .rwQueue, false⟩ :=
  ⟨rfl, rfl⟩

/-- C6 amended: Store construction with a non-nil statementTimeout fails
exactly when the driver is not postgres and not mysql (mock and sqlite3
are rejected with the unsupported-session-timeout error and any other
name with the unknown-database-type error); construction with a nil
statementTimeout never runs the check.  However, the
unsupported-session-timeout error can also be returned per-acquire: an
RWGetDBWithTimeout call with a non-nil timeout on a mock or sqlite3
backed Store receives it from the default connector. -/
theorem c6_amended_construction_check (driverName : String) (t : Nat) :
    NewWithConnectDBFuncAndTimeouts driverName (some t) = .ok ()
      ↔ (driverName = "postgres" ∨ driverName = "mysql") := by
  unfold NewWithConnectDBFuncAndTimeouts
  split_ifs with h1 h2 h3 h4 <;> first | (subst_vars; decide) | simp_all

theorem c6_witness :
    NewWithConnectDBFuncAndTimeouts "postgres" (some 4) = .ok () :=
  (c6_amended_construction_check "postgres" 4).mpr (Or.inl rfl)

/-- C10: Store construction with a nil statementTimeout succeeds for every
driver name, including names outside the supported set, because the
backend validation in NewWithConnectDBFuncAndTimeouts runs only when
statementTimeout is non-nil; an unrecognized driver is then first
rejected at connect time by DefaultConnectDBFunc with the
unknown-database-type error. -/
theorem c10_nil_timeout_construction (driverName : String) (o : ConnOracle)
    (t : Option Nat) :
    NewWithConnectDBFuncAndTimeouts driverName none = .ok ()
    ∧ (driverName ≠ "mock" → driverName ≠ "sqlite3" → driverName ≠ "postgres" →
        driverName ≠ "mysql" →
        DefaultConnectDBFunc o driverName t = .error (unknownDriverMsg driverName)) := by
  constructor
  · rfl
  · intro h1 h2 h3 h4
    unfold DefaultConnectDBFunc
    rw [if_neg h1, if_neg h2, if_neg h3, if_neg h4]

theorem c10_witness :
    NewWithConnectDBFuncAndTimeouts "oracle" none = .ok ()
    ∧ DefaultConnectDBFunc ⟨.ok 0, .ok 1, .ok ()⟩ "oracle" none
        = .error (unknownDriverMsg "oracle") :=
  ⟨(c10_nil_timeout_construction "oracle" ⟨.ok 0, .ok 1, .ok ()⟩ none).1,
   (c10_nil_timeout_construction "oracle" ⟨.ok 0, .ok 1, .ok ()⟩ none).2
     (by decide) (by decide) (by decide) (by decide)⟩

end DBLocker
